import Mathlib

/-!
Verification development for the metric aggregator of the pa_functions
repository (src/pa_functions/build/lib/pa_functions/pa_metrics.py).

The pandas pipeline is shallowly embedded: a DataFrame is a fixed column set
plus a list of rows, a row is an association list from column names to cell
values, and a cell value is a string or an exact rational (a missing binding
models a NaN cell).  Fallible pandas steps (column access, pivot output
column access, the elementwise Series addition that builds the composite
key, strict date parsing) return Except values; the error constructors mirror KeyError,
TypeError and the to_datetime parsing failure.  Floating point is modelled
by exact rationals; .round(4) is modelled as rounding to 4 decimal places
on exact rationals.
-/

namespace PaMetrics

/-- A cell value: pandas object cells here are strings or numbers. -/
inductive Val where
  | str : String → Val
  | num : ℚ → Val
deriving DecidableEq, Repr

/-- One row of a DataFrame: an association list from column names to cell
values; a column absent from the list is a NaN cell of that row. -/
structure Row where
  attrs : List (String × Val)
deriving DecidableEq, Repr

/-- Cell lookup; the first binding wins (a DataFrame has one value per column). -/
def Row.get (r : Row) (c : String) : Option Val :=
  (r.attrs.find? (fun p => p.1 == c)).map (fun p => p.2)

/-- A DataFrame: a fixed column set plus rows.  Column accesses (df[c], the
pivot index/columns/values arguments, the final column selection) consult
cols, since pandas raises KeyError for a name absent from the frame even
when no row has to be touched. -/
structure DF where
  cols : List String
  rows : List Row
deriving DecidableEq, Repr

/-- Errors surfaced by the embedded pipeline, mirroring the pandas ones. -/
inductive PdError where
  | keyError : String → PdError
  | typeError : String → PdError
  | parseError : String → PdError
deriving DecidableEq, Repr

/-- Codepoint-lexicographic order on character lists (Python string order
for the ASCII data handled here). -/
def charListLe : List Char → List Char → Bool
  | [], _ => true
  | _ :: _, [] => false
  | a :: as, b :: bs =>
    if a.toNat < b.toNat then true
    else if b.toNat < a.toNat then false
    else charListLe as bs

/-- String order used when pandas sorts a string-valued index level. -/
def strLeB (a b : String) : Bool := charListLe a.data b.data

/-- Order on cell values, per index level: strings lexicographically,
numbers numerically.  The frames in scope have homogeneous columns, so the
mixed cases (which real pandas would refuse to sort) are given an arbitrary
fixed answer. -/
def valLeB : Val → Val → Bool
  | .str a, .str b => strLeB a b
  | .num a, .num b => decide (a ≤ b)
  | .str _, .num _ => true
  | .num _, .str _ => false

/-- Whether a cell value is numeric. -/
def Val.isNum : Val → Bool
  | .str _ => false
  | .num _ => true

/-- Stable insertion of x in front of the first element not below it. -/
def insertLe (le : α → α → Bool) (x : α) : List α → List α
  | [] => [x]
  | y :: ys => if le x y then x :: y :: ys else y :: insertLe le x ys

/-- Stable sort (insertion sort), modelling an ascending pandas sort. -/
def sortLe (le : α → α → Bool) : List α → List α
  | [] => []
  | x :: xs => insertLe le x (sortLe le xs)

/-- List.mapM specialised to Except with reduction-friendly equations:
elementwise application that stops at the first error, as a pandas
column-wise operation raises on the first offending value. -/
def mapME (f : α → Except PdError β) : List α → Except PdError (List β)
  | [] => .ok []
  | x :: xs =>
    match f x with
    | .error e => .error e
    | .ok y =>
      match mapME f xs with
      | .error e => .error e
      | .ok ys => .ok (y :: ys)

/-- A decimal digit. -/
def charDigit (c : Char) : Option Nat :=
  if 48 ≤ c.toNat ∧ c.toNat ≤ 57 then some (c.toNat - 48) else none

def readNatAux : List Char → Nat → Bool → Option Nat
  | [], _, false => none
  | [], acc, true => some acc
  | c :: cs, acc, _ =>
    match charDigit c with
    | some d => readNatAux cs (acc * 10 + d) true
    | none => none

/-- Parse a nonempty all-digit character list. -/
def readNat (cs : List Char) : Option Nat := readNatAux cs 0 false

/-- Split a character list at every slash. -/
def splitSlash : List Char → List (List Char)
  | [] => [[]]
  | c :: cs =>
    let r := splitSlash cs
    if c = Char.ofNat 47 then [] :: r
    else
      match r with
      | [] => [[c]]
      | g :: gs => (c :: g) :: gs

/-- Day-first date parsing, modelling pd.to_datetime(..., dayfirst=True) on
the slash-separated numeric dates this library consumes.  The result is the
date encoded as y*10000 + m*100 + d, whose numeric order is chronological
order. -/
def parseDate (s : String) : Option Nat :=
  match splitSlash s.data with
  | [d, m, y] =>
    match readNat d, readNat m, readNat y with
    | some dn, some mn, some yn =>
      if 1 ≤ dn ∧ dn ≤ 31 ∧ 1 ≤ mn ∧ mn ≤ 12 then
        some (yn * 10000 + mn * 100 + dn)
      else none
    | _, _, _ => none
  | _ => none

/-- A date cell parsed as a day-first date; pd.to_datetime only succeeds on
the string-valued date cells in scope here. -/
def valDate : Val → Option Nat
  | .str s => parseDate s
  | .num _ => none

/-- .round(4): rounding to 4 decimal places on exact rationals (numpy's
banker's tie-breaking on binary floats is not reproduced; no tie is
exercised in this development). -/
def round4 (q : ℚ) : ℚ := ((q * 10000 + 1 / 2).floor : ℚ) / 10000

/-- Series division followed by .fillna(0).  In the code every division is
an exit count over HC_Ref, and HC_Ref is the sum of all four counts, so a
zero denominator only occurs as 0/0, which is NaN and becomes 0. -/
def divFill (a b : ℚ) : ℚ := if b = 0 then 0 else a / b

/-! ### calculate_turnover (pa_metrics.py lines 4-54) -/

/-- The pivot MultiIndex of line 28: (date, Ano, Mes, grouping value). -/
structure PKey where
  data : Val
  ano : Val
  mes : Val
  grp : Val
deriving DecidableEq, Repr

/-- Lexicographic order on the pivot index, as pandas sorts it. -/
def keyLE (a b : PKey) : Bool :=
  if a.data ≠ b.data then valLeB a.data b.data
  else if a.ano ≠ b.ano then valLeB a.ano b.ano
  else if a.mes ≠ b.mes then valLeB a.mes b.mes
  else valLeB a.grp b.grp

/-- One filtered input row as seen by the pivot of line 28: its index key,
its status value, and whether its headcount-type cell (the counted values
column) is non-NaN. -/
structure PEntry where
  pkey : PKey
  status : Val
  hcPresent : Bool
deriving DecidableEq, Repr

/-- Line 27 then line 28: drop Entrada/New rows, then keep the rows that
carry the full pivot index and a status (pivot_table drops rows with a NaN
grouping key). -/
def pivotEntries (df : DF) (g s h d : String) : List PEntry :=
  (df.rows.filter fun r =>
      decide (r.get h ≠ some (Val.str "Entrada") ∧ r.get s ≠ some (Val.str "New"))).filterMap
    fun r =>
      match r.get d, r.get "Ano", r.get "Mes", r.get g, r.get s with
      | some dv, some av, some mv, some gv, some sv =>
        some ⟨⟨dv, av, mv, gv⟩, sv, (r.get h).isSome⟩
      | _, _, _, _, _ => none

/-- aggfunc='count' of line 28: the number of rows of a pivot cell whose
values column (the headcount type) is non-NaN. -/
def countStatus (es : List PEntry) (k : PKey) (sv : Val) : Nat :=
  (es.filter fun e => decide (e.pkey = k) && decide (e.status = sv) && e.hcPresent).length

/-- Status (column) labels present in the pivot. -/
def pivotStatuses (es : List PEntry) : List Val :=
  (es.map PEntry.status).dedup

/-- One row of the pivot: index key plus the four status counts; a status
absent for the key counts 0 (.fillna(0) of line 28). -/
structure PRow where
  data : Val
  ano : Val
  mes : Val
  grp : Val
  atv : Nat
  inv : Nat
  vol : Nat
  red : Nat
deriving DecidableEq, Repr

/-- The pivot rows in index order (pandas sorts the MultiIndex). -/
def pivotRows (es : List PEntry) : List PRow :=
  (sortLe keyLE (es.map PEntry.pkey).dedup).map fun k =>
    ⟨k.data, k.ano, k.mes, k.grp,
      countStatus es k (Val.str "Atv"), countStatus es k (Val.str "Inv"),
      countStatus es k (Val.str "Vol"), countStatus es k (Val.str "Red")⟩

/-- Lines 27-31: the filter, the pivot, and the accesses pivot['Inv'],
pivot['Vol'] (line 29), pivot['Red'] (line 30), pivot['Atv'] (line 31),
which raise KeyError when that status value occurs nowhere in the filtered
input.  Column-existence checks first, in access order. -/
def turnoverPivot (df : DF) (g s h d : String) : Except PdError (List PRow) :=
  if h ∉ df.cols then .error (.keyError h)
  else if s ∉ df.cols then .error (.keyError s)
  else if d ∉ df.cols then .error (.keyError d)
  else if "Ano" ∉ df.cols then .error (.keyError "Ano")
  else if "Mes" ∉ df.cols then .error (.keyError "Mes")
  else if g ∉ df.cols then .error (.keyError g)
  else if Val.str "Inv" ∉ pivotStatuses (pivotEntries df g s h d) then .error (.keyError "Inv")
  else if Val.str "Vol" ∉ pivotStatuses (pivotEntries df g s h d) then .error (.keyError "Vol")
  else if Val.str "Red" ∉ pivotStatuses (pivotEntries df g s h d) then .error (.keyError "Red")
  else if Val.str "Atv" ∉ pivotStatuses (pivotEntries df g s h d) then .error (.keyError "Atv")
  else .ok (pivotRows (pivotEntries df g s h d))

/-- Line 29: Resc_Total = Inv + Vol. -/
def PRow.resc_total (p : PRow) : ℚ := (p.inv : ℚ) + (p.vol : ℚ)

/-- Line 30: Resc_Total+Red = Resc_Total + Red. -/
def PRow.resc_total_red (p : PRow) : ℚ := p.resc_total + (p.red : ℚ)

/-- Line 31: HC_Ref = Resc_Total+Red + Atv. -/
def PRow.hc_ref (p : PRow) : ℚ := p.resc_total_red + (p.atv : ℚ)

/-- Line 32: TO_Total = (Resc_Total / HC_Ref).fillna(0).round(4). -/
def PRow.to_total (p : PRow) : ℚ := round4 (divFill p.resc_total p.hc_ref)

/-- Line 33. -/
def PRow.to_vol (p : PRow) : ℚ := round4 (divFill (p.vol : ℚ) p.hc_ref)

/-- Line 34. -/
def PRow.to_inv (p : PRow) : ℚ := round4 (divFill (p.inv : ℚ) p.hc_ref)

/-- Line 35. -/
def PRow.to_red (p : PRow) : ℚ := round4 (divFill (p.red : ℚ) p.hc_ref)

/-- Line 36. -/
def PRow.to_total_red (p : PRow) : ℚ := round4 (divFill p.resc_total_red p.hc_ref)

/-- The groupby(['Ano', group]) partition of lines 37-46. -/
def samePart (p q : PRow) : Bool := decide (q.ano = p.ano) && decide (q.grp = p.grp)

/-- groupby(['Ano', group]).cumsum().round(4) evaluated at row p: the sum of
f over the rows of p's partition among the pivot rows up to and including p
(the argument holds that whole Prefix), in pivot index order. -/
def ytdOf (upto : List PRow) (p : PRow) (f : PRow → ℚ) : ℚ :=
  round4 (((upto.filter fun q => samePart p q).map f).sum)

/-- One output record of calculate_turnover: the 27 columns of line 20-23.
Names keep the source spelling with + written _red. -/
structure TRow where
  key : Val
  ano : Val
  mes : Val
  data : Val
  perimetro : Val
  atv : ℚ
  resc_inv : ℚ
  resc_red : ℚ
  resc_vol : ℚ
  resc_total : ℚ
  resc_total_red : ℚ
  hc_ref : ℚ
  to_inv : ℚ
  to_vol : ℚ
  to_total : ℚ
  to_red : ℚ
  to_total_red : ℚ
  resc_inv_ytd : ℚ
  resc_red_ytd : ℚ
  resc_vol_ytd : ℚ
  resc_total_ytd : ℚ
  resc_total_red_ytd : ℚ
  to_inv_ytd : ℚ
  to_vol_ytd : ℚ
  to_total_ytd : ℚ
  to_red_ytd : ℚ
  to_total_red_ytd : ℚ
deriving DecidableEq

/-- The derived columns of lines 29-46 for pivot row p, with upto the pivot
rows up to and including p in pivot index order (the rename of line 52 and
the Perimetro rename of line 48 are applied; the Key of line 49 is filled in
later). -/
def mkRow (upto : List PRow) (p : PRow) : TRow :=
  { key := Val.str ""
    ano := p.ano
    mes := p.mes
    data := p.data
    perimetro := p.grp
    atv := (p.atv : ℚ)
    resc_inv := (p.inv : ℚ)
    resc_red := (p.red : ℚ)
    resc_vol := (p.vol : ℚ)
    resc_total := p.resc_total
    resc_total_red := p.resc_total_red
    hc_ref := p.hc_ref
    to_inv := p.to_inv
    to_vol := p.to_vol
    to_total := p.to_total
    to_red := p.to_red
    to_total_red := p.to_total_red
    resc_inv_ytd := ytdOf upto p (fun q => (q.inv : ℚ))
    resc_red_ytd := ytdOf upto p (fun q => (q.red : ℚ))
    resc_vol_ytd := ytdOf upto p (fun q => (q.vol : ℚ))
    resc_total_ytd := ytdOf upto p PRow.resc_total
    resc_total_red_ytd := ytdOf upto p PRow.resc_total_red
    to_inv_ytd := ytdOf upto p PRow.to_inv
    to_vol_ytd := ytdOf upto p PRow.to_vol
    to_total_ytd := ytdOf upto p PRow.to_total
    to_red_ytd := ytdOf upto p PRow.to_red
    to_total_red_ytd := ytdOf upto p PRow.to_total_red }

/-- Walk the pivot rows in index order, extending the seen list, so that
every cumulative column sums its partition within the rows seen so far
(pandas groupby cumsum runs over the frame's current row order, which at
lines 37-46 is the pivot index order, not the chronological order). -/
def deriveGo (seen : List PRow) : List PRow → List TRow
  | [] => []
  | p :: rest => mkRow (seen ++ [p]) p :: deriveGo (seen ++ [p]) rest

/-- Lines 29-48 applied to the whole pivot. -/
def turnoverDerive (ps : List PRow) : List TRow := deriveGo [] ps

/-- Elementwise pandas Series addition, as used at line 49: string cells
concatenate, numeric cells add numerically, and a pair of different kinds
raises TypeError.  In particular an all-numeric Perimetro + Ano + Mes
succeeds in pandas and produces a numeric Key column. -/
def valAdd : Val → Val → Except PdError Val
  | .str a, .str b => .ok (.str (a ++ b))
  | .num a, .num b => .ok (.num (a + b))
  | _, _ => .error (.typeError "unsupported operand types")

/-- Line 49: Key = (Perimetro + Ano) + Mes, elementwise. -/
def addKey (t : TRow) : Except PdError TRow :=
  match valAdd t.perimetro t.ano with
  | .error e => .error e
  | .ok x =>
    match valAdd x t.mes with
    | .error e => .error e
    | .ok k => .ok { t with key := k }

/-- Lines 27-49. -/
def turnoverKeyed (df : DF) (g s h d : String) : Except PdError (List TRow) :=
  match turnoverPivot df g s h d with
  | .error e => .error e
  | .ok ps => mapME addKey (turnoverDerive ps)

/-- Line 50: Sort_Date = pd.to_datetime(Data, dayfirst=True); an
unparseable date raises (errors='raise' is the default). -/
def withSortDate (t : TRow) : Except PdError (TRow × Nat) :=
  match t.data with
  | .str ds =>
    match parseDate ds with
    | some n => .ok (t, n)
    | none => .error (.parseError ds)
  | .num _ => .error (.parseError "non-string date")

/-- calculate_turnover (lines 4-54): pivot and derived columns, composite
key, chronological sort on the parsed date, fixed column selection. -/
def calculate_turnover (df : DF) (g : String) (s : String := "Tabela")
    (h : String := "Tipo_HC") (d : String := "Data") :
    Except PdError (List TRow) :=
  match turnoverKeyed df g s h d with
  | .error e => .error e
  | .ok ts =>
    match mapME withSortDate ts with
    | .error e => .error e
    | .ok pr => .ok ((sortLe (fun a b => Nat.ble a.2 b.2) pr).map Prod.fst)

/-- The default group_type list of lines 70-71 and 120-121. -/
def defaultGroupType : List String :=
  ["Company", "EXCO", "VP", "Diretoria", "CC_Desc", "BP_Ger", "BP_Coord",
   "Grupo CC 1", "Grupo CC 2", "Grupo CC 3"]

/-- make_turnover_table (lines 56-74): one calculate_turnover per grouping
column, concatenated in list order (pd.concat, ignore_index=True). -/
def make_turnover_table (df : DF) (group_type : Option (List String) := none)
    (s : String := "Tabela") (h : String := "Tipo_HC") (d : String := "Data") :
    Except PdError (List TRow) :=
  match mapME (fun g => calculate_turnover df g s h d) (group_type.getD defaultGroupType) with
  | .error e => .error e
  | .ok ts => .ok ts.flatten

/-! ### calculate_tenure (pa_metrics.py lines 76-104) -/

/-- One surviving input row as seen by the tenure pivot of line 96: parsed
date, grouping value, Atv/Resc bucket, and the numeric tenure cell. -/
structure TenEntry where
  dt : Nat
  grp : Val
  isAtv : Bool
  ten : Option ℚ
deriving DecidableEq

/-- The Tenure cell of a row, when numeric (the pivot aggregates the numeric
values of that column; a NaN cell contributes nothing to a median). -/
def tenOf (r : Row) : Option ℚ :=
  match r.get "Tenure" with
  | some (.num q) => some q
  | _ => none

/-- Line 95: Atv_Resc = 'Atv' when the status is Atv or New, else 'Resc'. -/
def bucketIsAtv (s : String) (r : Row) : Bool :=
  decide (r.get s = some (Val.str "Atv") ∨ r.get s = some (Val.str "New"))

/-- Lines 92-95: drop Entrada rows (line 92), parse the date column
day-first with errors='coerce' and drop the rows whose date did not parse
(lines 93-94), keep only rows whose grouping cell is non-NaN (the pivot of
line 96 drops NaN index keys), and record bucket and tenure. -/
def tenureEntries (df : DF) (g s h d : String) : List TenEntry :=
  (df.rows.filter fun r => decide (r.get h ≠ some (Val.str "Entrada"))).filterMap fun r =>
    match (r.get d).bind valDate, r.get g with
    | some dt, some gv => some ⟨dt, gv, bucketIsAtv s r, tenOf r⟩
    | _, _ => none

/-- aggfunc="median": median of the values (mean of the two middle values of
the sorted list for an even count); none for an empty cell, which pandas
leaves as NaN — nulls are possible in the tenure output. -/
def median (xs : List ℚ) : Option ℚ :=
  let srt := sortLe (fun a b => decide (a ≤ b)) xs
  if srt.length = 0 then none
  else if srt.length % 2 = 1 then srt[srt.length / 2]?
  else
    match srt[srt.length / 2 - 1]?, srt[srt.length / 2]? with
    | some a, some b => some ((a + b) / 2)
    | _, _ => none

/-- Order on the (date, group) pivot index of line 96. -/
def tkeyLE (a b : Nat × Val) : Bool :=
  if a.1 ≠ b.1 then Nat.ble a.1 b.1 else valLeB a.2 b.2

/-- The (date, group) pivot index in sorted order; the sort_values(date) of
line 97 is then a no-op since the index is already sorted by date first. -/
def tenureKeys (es : List TenEntry) : List (Nat × Val) :=
  sortLe tkeyLE (es.map fun e => (e.dt, e.grp)).dedup

/-- One median cell of the pivot of line 96. -/
def tenureCell (es : List TenEntry) (k : Nat × Val) (atv : Bool) : Option ℚ :=
  median ((es.filter fun e =>
    decide (e.dt = k.1) && decide (e.grp = k.2) && (e.isAtv == atv)).filterMap TenEntry.ten)

/-- Whether the pivot of line 96 has an 'Atv' (resp. 'Resc') column at all:
the bucket must contribute a numeric tenure value somewhere, otherwise
pivot_table's dropna leaves no such column and the selection of line 103
raises KeyError for the renamed median column. -/
def hasBucket (es : List TenEntry) (atv : Bool) : Bool :=
  es.any fun e => (e.isAtv == atv) && e.ten.isSome

/-- One output record of calculate_tenure (the columns selected at line
103).  Ano and Mes are the integers extracted from the parsed date (lines
98-99); the Data column, a datetime rendered back to a string at line 102,
is kept in its parsed y*10000+m*100+d encoding. -/
structure TenRow where
  key : String
  ano : Nat
  mes : Nat
  data : Nat
  perimetro : Val
  meses_mediana_atv : Option ℚ
  meses_mediana_resc : Option ℚ
deriving DecidableEq

/-- Lines 98-101 for one pivot key: year and month from the parsed date and
Key = Perimetro + str(Ano) + str(Mes); pandas raises TypeError at line 101
when the Perimetro values are not strings. -/
def mkTenRow (es : List TenEntry) (k : Nat × Val) : Except PdError TenRow :=
  match k.2 with
  | .str gs =>
    .ok { key := gs ++ toString (k.1 / 10000) ++ toString (k.1 / 100 % 100)
          ano := k.1 / 10000
          mes := k.1 / 100 % 100
          data := k.1
          perimetro := k.2
          meses_mediana_atv := tenureCell es k true
          meses_mediana_resc := tenureCell es k false }
  | .num _ => .error (.typeError "can only concatenate str to str")

/-- calculate_tenure (lines 76-104): Entrada filter, coercing day-first date
parse with silent row drop, Atv/Resc bucketing, per-(date, group) median
pivot, Ano/Mes/Key derivation, then the fixed column selection of line 103,
which raises KeyError when a bucket column is absent from the pivot. -/
def calculate_tenure (df : DF) (g : String) (s : String := "Tabela")
    (h : String := "Tipo_HC") (d : String := "Data") :
    Except PdError (List TenRow) :=
  if h ∉ df.cols then .error (.keyError h)
  else if d ∉ df.cols then .error (.keyError d)
  else if s ∉ df.cols then .error (.keyError s)
  else if "Tenure" ∉ df.cols then .error (.keyError "Tenure")
  else if g ∉ df.cols then .error (.keyError g)
  else
    match mapME (mkTenRow (tenureEntries df g s h d)) (tenureKeys (tenureEntries df g s h d)) with
    | .error e => .error e
    | .ok rows =>
      if ¬ hasBucket (tenureEntries df g s h d) true then .error (.keyError "Meses_Mediana_Atv")
      else if ¬ hasBucket (tenureEntries df g s h d) false then
        .error (.keyError "Meses_Mediana_Resc")
      else .ok rows

/-- make_tenure_table (lines 106-124): one calculate_tenure per grouping
column, concatenated in list order (pd.concat, ignore_index=True). -/
def make_tenure_table (df : DF) (group_type : Option (List String) := none)
    (s : String := "Tabela") (h : String := "Tipo_HC") (d : String := "Data") :
    Except PdError (List TenRow) :=
  match mapME (fun g => calculate_tenure df g s h d) (group_type.getD defaultGroupType) with
  | .error e => .error e
  | .ok ts => .ok ts.flatten

/-! ### Derived input transformations the specification speaks about -/

/-- The input with the rows whose headcount type is the Entrada sentinel
removed. -/
def dropEntrada (df : DF) (h : String) : DF :=
  ⟨df.cols, df.rows.filter fun r => decide (r.get h ≠ some (Val.str "Entrada"))⟩

/-- The input with the rows whose status is the New code removed. -/
def dropNew (df : DF) (s : String) : DF :=
  ⟨df.cols, df.rows.filter fun r => decide (r.get s ≠ some (Val.str "New"))⟩

/-- The input with the rows whose date cell does not parse as a day-first
date removed. -/
def dropUnparsed (df : DF) (d : String) : DF :=
  ⟨df.cols, df.rows.filter fun r => ((r.get d).bind valDate).isSome⟩

/-- Rewrite the New status code to Atv in the status column of a row. -/
def replNewAtv (s : String) (r : Row) : Row :=
  ⟨r.attrs.map fun p => if p.1 = s ∧ p.2 = Val.str "New" then (p.1, Val.str "Atv") else p⟩

/-- The input with every New status cell rewritten to Atv. -/
def newToAtv (df : DF) (s : String) : DF :=
  ⟨df.cols, df.rows.map (replNewAtv s)⟩

/-! ### Result classifiers -/

/-- Whether a pipeline result is a missing-column (KeyError) failure. -/
def isKeyError {α : Type} : Except PdError α → Bool
  | .error (.keyError _) => true
  | _ => false

/-- Whether a pipeline result is a TypeError failure. -/
def isTypeError {α : Type} : Except PdError α → Bool
  | .error (.typeError _) => true
  | _ => false

/-- Whether a pipeline result is a date-parsing failure. -/
def isParseError {α : Type} : Except PdError α → Bool
  | .error (.parseError _) => true
  | _ => false

instance {ε α : Type} [DecidableEq ε] [DecidableEq α] : DecidableEq (Except ε α)
  | .ok a, .ok b => if hab : a = b then .isTrue (by rw [hab]) else .isFalse (by simp [hab])
  | .error a, .error b => if hab : a = b then .isTrue (by rw [hab]) else .isFalse (by simp [hab])
  | .ok _, .error _ => .isFalse (by simp)
  | .error _, .ok _ => .isFalse (by simp)

/-! ### Concrete tables used to witness the theorems -/

/-- The documented input schema: the role columns under their default
names, the literal Ano/Mes columns, a Tenure column and one grouping
column G. -/
def fullCols : List String := ["Data", "Ano", "Mes", "Tabela", "Tipo_HC", "Tenure", "G"]

/-- One input row over fullCols with string cells and a numeric tenure. -/
def rW (dt an me gv st hc : String) (tn : ℚ) : Row :=
  ⟨[("Data", .str dt), ("Ano", .str an), ("Mes", .str me), ("G", .str gv),
    ("Tabela", .str st), ("Tipo_HC", .str hc), ("Tenure", .num tn)]⟩

/-- A well-formed input: four January 2024 rows of group A, one per status. -/
def dfW : DF := ⟨fullCols,
  [rW "31/01/2024" "2024" "1" "A" "Atv" "IC" 10,
   rW "31/01/2024" "2024" "1" "A" "Vol" "IC" 5,
   rW "31/01/2024" "2024" "1" "A" "Inv" "IC" 7,
   rW "31/01/2024" "2024" "1" "A" "Red" "IC" 3]⟩

/-- The single pivot row of dfW. -/
def prowW : PRow := ⟨.str "31/01/2024", .str "2024", .str "1", .str "A", 1, 1, 1, 1⟩

/-- The single turnover output row of dfW. -/
def trowW : TRow :=
  { key := .str "A20241", ano := .str "2024", mes := .str "1", data := .str "31/01/2024",
    perimetro := .str "A", atv := 1, resc_inv := 1, resc_red := 1, resc_vol := 1,
    resc_total := 2, resc_total_red := 3, hc_ref := 4,
    to_inv := 1 / 4, to_vol := 1 / 4, to_total := 1 / 2, to_red := 1 / 4, to_total_red := 3 / 4,
    resc_inv_ytd := 1, resc_red_ytd := 1, resc_vol_ytd := 1, resc_total_ytd := 2,
    resc_total_red_ytd := 3, to_inv_ytd := 1 / 4, to_vol_ytd := 1 / 4, to_total_ytd := 1 / 2,
    to_red_ytd := 1 / 4, to_total_red_ytd := 3 / 4 }

/-- The single tenure output row of dfW. -/
def tenrowW : TenRow :=
  { key := "A20241", ano := 2024, mes := 1, data := 20240131, perimetro := .str "A",
    meses_mediana_atv := some 10, meses_mediana_resc := some 5 }

/-- An empty table carrying the full documented column set. -/
def dfE : DF := ⟨fullCols, []⟩

/-- The two-row example of the specification: group A, January, one active
row and one voluntary-exit row, and nothing else. -/
def dfC5 : DF := ⟨fullCols,
  [rW "31/01/2024" "2024" "1" "A" "Atv" "IC" 10,
   rW "31/01/2024" "2024" "1" "A" "Vol" "IC" 5]⟩

/-- The two-row example extended with Inv and Red rows in another group, so
that every status column exists in the pivot. -/
def dfC5x : DF := ⟨fullCols,
  [rW "31/01/2024" "2024" "1" "A" "Atv" "IC" 10,
   rW "31/01/2024" "2024" "1" "A" "Vol" "IC" 5,
   rW "31/01/2024" "2024" "1" "B" "Inv" "IC" 7,
   rW "31/01/2024" "2024" "1" "B" "Red" "IC" 3]⟩

/-- Dates whose string order disagrees with their chronological order: the
January date "2/1/2023" sorts after the February date "1/2/2023" as a
string, so the cumulative pass of lines 37-46 runs February before January
while the output of line 51 lists January first. -/
def dfC3 : DF := ⟨fullCols,
  [rW "2/1/2023" "2023" "1" "A" "Vol" "IC" 5,
   rW "1/2/2023" "2023" "2" "A" "Atv" "IC" 10,
   rW "1/2/2023" "2023" "2" "A" "Inv" "IC" 7,
   rW "1/2/2023" "2023" "2" "A" "Red" "IC" 3]⟩

/-- The February pivot row of dfC3, first in pivot index order. -/
def prowF : PRow := ⟨.str "1/2/2023", .str "2023", .str "2", .str "A", 1, 1, 0, 1⟩

/-- The January pivot row of dfC3, second in pivot index order. -/
def prowJ : PRow := ⟨.str "2/1/2023", .str "2023", .str "1", .str "A", 0, 0, 1, 0⟩

/-- The derived (pre-Key) record of prowF: first in cumulative order, so its
year-to-date columns cover February only. -/
def trowF0 : TRow :=
  { key := .str "", ano := .str "2023", mes := .str "2", data := .str "1/2/2023",
    perimetro := .str "A", atv := 1, resc_inv := 1, resc_red := 1, resc_vol := 0,
    resc_total := 1, resc_total_red := 2, hc_ref := 3,
    to_inv := 3333 / 10000, to_vol := 0, to_total := 3333 / 10000, to_red := 3333 / 10000,
    to_total_red := 6667 / 10000,
    resc_inv_ytd := 1, resc_red_ytd := 1, resc_vol_ytd := 0, resc_total_ytd := 1,
    resc_total_red_ytd := 2, to_inv_ytd := 3333 / 10000, to_vol_ytd := 0,
    to_total_ytd := 3333 / 10000, to_red_ytd := 3333 / 10000, to_total_red_ytd := 6667 / 10000 }

/-- The derived (pre-Key) record of prowJ: second in cumulative order, so
its year-to-date columns cover February and January. -/
def trowJ0 : TRow :=
  { key := .str "", ano := .str "2023", mes := .str "1", data := .str "2/1/2023",
    perimetro := .str "A", atv := 0, resc_inv := 0, resc_red := 0, resc_vol := 1,
    resc_total := 1, resc_total_red := 1, hc_ref := 1,
    to_inv := 0, to_vol := 1, to_total := 1, to_red := 0, to_total_red := 1,
    resc_inv_ytd := 1, resc_red_ytd := 1, resc_vol_ytd := 1, resc_total_ytd := 2,
    resc_total_red_ytd := 3, to_inv_ytd := 3333 / 10000, to_vol_ytd := 1,
    to_total_ytd := 13333 / 10000, to_red_ytd := 3333 / 10000,
    to_total_red_ytd := 16667 / 10000 }

/-- dfW plus one extra January row whose date cell does not parse. -/
def dfB : DF := ⟨fullCols,
  [rW "31/01/2024" "2024" "1" "A" "Atv" "IC" 10,
   rW "31/01/2024" "2024" "1" "A" "Vol" "IC" 5,
   rW "31/01/2024" "2024" "1" "A" "Inv" "IC" 7,
   rW "31/01/2024" "2024" "1" "A" "Red" "IC" 3,
   rW "bad-date" "2024" "1" "A" "Atv" "IC" 2]⟩

/-- A row whose Ano cell is a number instead of a string. -/
def rN (dt : String) (an : ℚ) (me gv st hc : String) : Row :=
  ⟨[("Data", .str dt), ("Ano", .num an), ("Mes", .str me), ("G", .str gv),
    ("Tabela", .str st), ("Tipo_HC", .str hc), ("Tenure", .num 1)]⟩

/-- dfW with the Ano column carried as numbers while the grouping values
and the Mes column remain strings (the mixed case of line 49). -/
def dfN : DF := ⟨fullCols,
  [rN "31/01/2024" 2024 "1" "A" "Atv" "IC",
   rN "31/01/2024" 2024 "1" "A" "Vol" "IC",
   rN "31/01/2024" 2024 "1" "A" "Inv" "IC",
   rN "31/01/2024" 2024 "1" "A" "Red" "IC"]⟩

/-- The single pivot row of dfN: its ano field is numeric. -/
def prowN : PRow := ⟨.str "31/01/2024", .num 2024, .str "1", .str "A", 1, 1, 1, 1⟩

/-- A row whose grouping, Ano and Mes cells are all numeric. -/
def rNN (dt : String) (gq : ℚ) (st : String) : Row :=
  ⟨[("Data", .str dt), ("Ano", .num 2024), ("Mes", .num 1), ("G", .num gq),
    ("Tabela", .str st), ("Tipo_HC", .str "IC"), ("Tenure", .num 1)]⟩

/-- A table whose grouping column G, Ano and Mes are all numeric: line 49
then adds the three columns numerically and the call succeeds. -/
def dfNN : DF := ⟨fullCols,
  [rNN "31/01/2024" 1 "Atv", rNN "31/01/2024" 1 "Vol",
   rNN "31/01/2024" 1 "Inv", rNN "31/01/2024" 1 "Red"]⟩

/-- The documented schema without the Ano column; the four role columns are
present. -/
def dfA : DF := ⟨["Data", "Mes", "Tabela", "Tipo_HC", "Tenure", "G"],
  [⟨[("Data", .str "31/01/2024"), ("Mes", .str "1"), ("G", .str "A"),
     ("Tabela", .str "Atv"), ("Tipo_HC", .str "IC"), ("Tenure", .num 1)]⟩]⟩

/-- The documented schema without the Mes column; the four role columns and
Ano are present. -/
def dfM : DF := ⟨["Data", "Ano", "Tabela", "Tipo_HC", "Tenure", "G"],
  [⟨[("Data", .str "31/01/2024"), ("Ano", .str "2024"), ("G", .str "A"),
     ("Tabela", .str "Atv"), ("Tipo_HC", .str "IC"), ("Tenure", .num 1)]⟩]⟩

/-- The row list of a successful turnover result (empty for an error). -/
def okTRows (e : Except PdError (List TRow)) : List TRow :=
  match e with
  | .ok l => l
  | .error _ => []

set_option maxRecDepth 10000

attribute [local semireducible] Rat.add Rat.mul Rat.inv Rat.sub Rat.ofScientific

/-! ### Lemmas about the embedding combinators -/

theorem insertLe_perm (le : α → α → Bool) (x : α) :
    ∀ l : List α, List.Perm (insertLe le x l) (x :: l)
  | [] => List.Perm.refl _
  | y :: ys => by
    unfold insertLe
    split
    · exact List.Perm.refl _
    · exact ((insertLe_perm le x ys).cons y).trans (List.Perm.swap x y ys)

theorem sortLe_perm (le : α → α → Bool) : ∀ l : List α, List.Perm (sortLe le l) l
  | [] => List.Perm.refl _
  | x :: xs => (insertLe_perm le x (sortLe le xs)).trans ((sortLe_perm le xs).cons x)

theorem mem_sortLe {le : α → α → Bool} {a : α} {l : List α} :
    a ∈ sortLe le l ↔ a ∈ l :=
  (sortLe_perm le l).mem_iff

theorem mapME_ok_forall2 {α β : Type} {f : α → Except PdError β} :
    ∀ (l : List α) (ys : List β), mapME f l = .ok ys →
      List.Forall₂ (fun x y => f x = .ok y) l ys := by
  intro l
  induction l with
  | nil =>
    intro ys hy
    unfold mapME at hy
    cases hy
    exact List.Forall₂.nil
  | cons x xs ih =>
    intro ys hy
    unfold mapME at hy
    split at hy
    · cases hy
    · split at hy
      · cases hy
      · cases hy
        exact List.Forall₂.cons (by assumption) (ih _ (by assumption))

theorem forall2_mem_right {α β : Type} {R : α → β → Prop} :
    ∀ {l : List α} {ys : List β}, List.Forall₂ R l ys → ∀ {y : β}, y ∈ ys →
      ∃ x ∈ l, R x y := by
  intro l ys hf
  induction hf with
  | nil => intro y hy; cases hy
  | cons ha _ ih =>
    intro y hy
    rcases List.mem_cons.mp hy with h1 | h2
    · subst h1
      exact ⟨_, List.mem_cons_self _ _, ha⟩
    · obtain ⟨x, hx, hr⟩ := ih h2
      exact ⟨x, List.mem_cons_of_mem _ hx, hr⟩

theorem mapME_ok_mem {α β : Type} {f : α → Except PdError β} {l : List α} {ys : List β}
    (hm : mapME f l = .ok ys) {y : β} (hy : y ∈ ys) : ∃ x ∈ l, f x = .ok y :=
  forall2_mem_right (mapME_ok_forall2 l ys hm) hy

theorem mapME_error_of_mem {α β : Type} {f : α → Except PdError β} {x : α} {e : PdError} :
    ∀ {l : List α}, x ∈ l → f x = .error e → ∃ e2, mapME f l = .error e2 := by
  intro l
  induction l with
  | nil => intro hx; cases hx
  | cons a as ih =>
    intro hx he
    unfold mapME
    cases hfa : f a with
    | error e3 => exact ⟨e3, rfl⟩
    | ok y =>
      rcases List.mem_cons.mp hx with h1 | h2
      · subst h1
        rw [hfa] at he
        cases he
      · obtain ⟨e2, h2e⟩ := ih h2 he
        rw [h2e]
        exact ⟨e2, rfl⟩

theorem mapME_error_shape {α β : Type} {f : α → Except PdError β} {P : PdError → Prop}
    (hP : ∀ x e, f x = .error e → P e) :
    ∀ (l : List α) (e : PdError), mapME f l = .error e → P e := by
  intro l
  induction l with
  | nil =>
    intro e he
    unfold mapME at he
    cases he
  | cons a as ih =>
    intro e he
    unfold mapME at he
    split at he
    · cases he
      exact hP a e (by assumption)
    · split at he
      · cases he
        exact ih e (by assumption)
      · cases he

theorem deriveGo_length : ∀ (l seen : List PRow), (deriveGo seen l).length = l.length := by
  intro l
  induction l with
  | nil => intro seen; rfl
  | cons p rest ih => intro seen; simp [deriveGo, ih]

theorem mem_deriveGo {t : TRow} :
    ∀ (l seen : List PRow), t ∈ deriveGo seen l → ∃ upto p, p ∈ l ∧ t = mkRow upto p := by
  intro l
  induction l with
  | nil => intro seen ht; cases ht
  | cons p rest ih =>
    intro seen ht
    rcases List.mem_cons.mp ht with h1 | h2
    · exact ⟨seen ++ [p], p, List.mem_cons_self _ _, h1⟩
    · obtain ⟨u, q, hq, ht2⟩ := ih (seen ++ [p]) h2
      exact ⟨u, q, List.mem_cons_of_mem _ hq, ht2⟩

theorem deriveGo_mem_of_mem {p : PRow} :
    ∀ (l seen : List PRow), p ∈ l → ∃ upto, mkRow upto p ∈ deriveGo seen l := by
  intro l
  induction l with
  | nil => intro seen hp; cases hp
  | cons a rest ih =>
    intro seen hp
    rcases List.mem_cons.mp hp with h1 | h2
    · subst h1
      exact ⟨seen ++ [p], List.mem_cons_self _ _⟩
    · obtain ⟨u, hu⟩ := ih (seen ++ [a]) h2
      exact ⟨u, List.mem_cons_of_mem _ hu⟩

theorem deriveGo_getElem :
    ∀ (l seen : List PRow) (i : Nat) (hi : i < l.length),
      (deriveGo seen l).get ⟨i, by rw [deriveGo_length]; exact hi⟩ =
        mkRow (seen ++ l.take (i + 1)) (l.get ⟨i, hi⟩) := by
  intro l
  induction l with
  | nil => intro seen i hi; cases hi
  | cons p rest ih =>
    intro seen i hi
    cases i with
    | zero => simp [deriveGo]
    | succ n =>
      have hn : n < rest.length := Nat.lt_of_succ_lt_succ hi
      have := ih (seen ++ [p]) n hn
      simp only [deriveGo, List.get_cons_succ]
      rw [this]
      congr 1
      simp [List.append_assoc]

/-! ### Rounding lemmas -/

theorem round4_eq_intFloor (q : ℚ) : round4 q = ((⌊q * 10000 + 1 / 2⌋ : ℤ) : ℚ) / 10000 := rfl

theorem round4_zero : round4 0 = 0 := by decide

theorem round4_nonneg {q : ℚ} (hq : 0 ≤ q) : 0 ≤ round4 q := by
  rw [round4_eq_intFloor]
  apply div_nonneg _ (by norm_num)
  have h0 : (0 : ℚ) ≤ q * 10000 + 1 / 2 := by
    have := mul_nonneg hq (by norm_num : (0 : ℚ) ≤ 10000)
    linarith
  have : (0 : ℤ) ≤ ⌊q * 10000 + 1 / 2⌋ := Int.le_floor.mpr (by exact_mod_cast h0)
  exact_mod_cast this

theorem round4_mono {a b : ℚ} (hab : a ≤ b) : round4 a ≤ round4 b := by
  rw [round4_eq_intFloor, round4_eq_intFloor]
  have h1 : a * 10000 + 1 / 2 ≤ b * 10000 + 1 / 2 := by
    have := mul_le_mul_of_nonneg_right hab (by norm_num : (0 : ℚ) ≤ 10000)
    linarith
  have h2 : ⌊a * 10000 + 1 / 2⌋ ≤ ⌊b * 10000 + 1 / 2⌋ := Int.floor_le_floor h1
  have h3 : ((⌊a * 10000 + 1 / 2⌋ : ℤ) : ℚ) ≤ ((⌊b * 10000 + 1 / 2⌋ : ℤ) : ℚ) := by
    exact_mod_cast h2
  linarith

theorem divFill_nonneg {a b : ℚ} (ha : 0 ≤ a) (hb : 0 ≤ b) : 0 ≤ divFill a b := by
  unfold divFill
  split
  · exact le_refl 0
  · exact div_nonneg ha hb

/-! ### Nonnegativity of every column the cumulative pass sums -/

theorem prow_counts_nonneg (p : PRow) :
    0 ≤ ((p.inv : ℚ)) ∧ 0 ≤ ((p.vol : ℚ)) ∧ 0 ≤ ((p.red : ℚ)) ∧ 0 ≤ ((p.atv : ℚ)) :=
  ⟨Nat.cast_nonneg _, Nat.cast_nonneg _, Nat.cast_nonneg _, Nat.cast_nonneg _⟩

theorem resc_total_nonneg (p : PRow) : 0 ≤ p.resc_total := by
  unfold PRow.resc_total
  positivity

theorem resc_total_red_nonneg (p : PRow) : 0 ≤ p.resc_total_red := by
  unfold PRow.resc_total_red PRow.resc_total
  positivity

theorem hc_ref_nonneg (p : PRow) : 0 ≤ p.hc_ref := by
  unfold PRow.hc_ref PRow.resc_total_red PRow.resc_total
  positivity

theorem to_total_nonneg (p : PRow) : 0 ≤ p.to_total :=
  round4_nonneg (divFill_nonneg (resc_total_nonneg p) (hc_ref_nonneg p))

theorem to_vol_nonneg (p : PRow) : 0 ≤ p.to_vol :=
  round4_nonneg (divFill_nonneg (Nat.cast_nonneg _) (hc_ref_nonneg p))

theorem to_inv_nonneg (p : PRow) : 0 ≤ p.to_inv :=
  round4_nonneg (divFill_nonneg (Nat.cast_nonneg _) (hc_ref_nonneg p))

theorem to_red_nonneg (p : PRow) : 0 ≤ p.to_red :=
  round4_nonneg (divFill_nonneg (Nat.cast_nonneg _) (hc_ref_nonneg p))

theorem to_total_red_nonneg (p : PRow) : 0 ≤ p.to_total_red :=
  round4_nonneg (divFill_nonneg (resc_total_red_nonneg p) (hc_ref_nonneg p))

/-! ### The cumulative columns grow along the pivot order of a partition -/

theorem ytdOf_take_le (ps : List PRow) (f : PRow → ℚ) (hf : ∀ q, 0 ≤ f q)
    {i j : Nat} (hij : i ≤ j) (hi : i < ps.length) (hj : j < ps.length)
    (hano : (ps.get ⟨i, hi⟩).ano = (ps.get ⟨j, hj⟩).ano)
    (hgrp : (ps.get ⟨i, hi⟩).grp = (ps.get ⟨j, hj⟩).grp) :
    ytdOf (ps.take (i + 1)) (ps.get ⟨i, hi⟩) f ≤
      ytdOf (ps.take (j + 1)) (ps.get ⟨j, hj⟩) f := by
  unfold ytdOf
  apply round4_mono
  have hpred : (fun q => samePart (ps.get ⟨i, hi⟩) q) =
      (fun q => samePart (ps.get ⟨j, hj⟩) q) := by
    funext q
    unfold samePart
    rw [hano, hgrp]
  rw [hpred]
  apply List.Sublist.sum_le_sum
  · apply List.Sublist.map
    apply List.Sublist.filter
    have htt : ps.take (i + 1) = (ps.take (j + 1)).take (i + 1) := by
      rw [List.take_take]
      congr 1
      omega
    rw [htt]
    have hpre := List.take_prefix (i + 1) (ps.take (j + 1))
    exact hpre.sublist
  · intro a ha
    obtain ⟨q, _, rfl⟩ := List.mem_map.mp ha
    exact hf q

/-! ### Shape lemmas for the keyed and sorted stages -/

theorem valAdd_error_shape {a b : Val} {e : PdError} (hv : valAdd a b = .error e) :
    ∃ m, e = .typeError m := by
  unfold valAdd at hv
  cases a <;> cases b <;> cases hv <;> exact ⟨_, rfl⟩

theorem addKey_ok_shape {t r : TRow} (ha : addKey t = .ok r) :
    r = { t with key := r.key } := by
  unfold addKey at ha
  split at ha
  · cases ha
  · split at ha
    · cases ha
    · cases ha
      rfl

theorem addKey_error_shape {t : TRow} {e : PdError} (ha : addKey t = .error e) :
    ∃ m, e = .typeError m := by
  unfold addKey at ha
  split at ha
  · rename_i e2 hv
    cases ha
    exact valAdd_error_shape hv
  · split at ha
    · rename_i e2 hv
      cases ha
      exact valAdd_error_shape hv
    · cases ha

theorem addKey_error_of_mixed {t : TRow} {q : ℚ} (ha : t.ano = Val.num q)
    (hmix : (∃ a, t.perimetro = Val.str a) ∨ (∃ b, t.mes = Val.str b)) :
    ∃ m, addKey t = .error (.typeError m) := by
  unfold addKey
  rcases hmix with ⟨a, hp⟩ | ⟨b, hm⟩
  · rw [hp, ha]
    exact ⟨_, rfl⟩
  · cases hgrp : t.perimetro with
    | str c =>
      rw [ha]
      exact ⟨_, rfl⟩
    | num c =>
      rw [ha, hm]
      exact ⟨_, rfl⟩

theorem withSortDate_ok_shape {t : TRow} {pr : TRow × Nat} (hw : withSortDate t = .ok pr) :
    pr.1 = t := by
  unfold withSortDate at hw
  split at hw
  · split at hw
    · cases hw
      rfl
    · cases hw
  · cases hw

theorem withSortDate_error_shape {t : TRow} {e : PdError} (hw : withSortDate t = .error e) :
    ∃ m, e = .parseError m := by
  unfold withSortDate at hw
  split at hw
  · split at hw
    · cases hw
    · cases hw
      exact ⟨_, rfl⟩
  · cases hw
    exact ⟨_, rfl⟩

theorem withSortDate_error_of_unparsed {t : TRow} (hu : valDate t.data = none) :
    ∃ m, withSortDate t = .error (.parseError m) := by
  cases hd : t.data with
  | str ds =>
    have hp : parseDate ds = none := by
      rw [hd] at hu
      simpa [valDate] using hu
    exact ⟨ds, by simp [withSortDate, hd, hp]⟩
  | num q => exact ⟨"non-string date", by simp [withSortDate, hd]⟩

/-! ### Where each output row of calculate_turnover comes from -/

theorem keyed_ok_mem {df : DF} {g s h d : String} {ts : List TRow}
    (hk : turnoverKeyed df g s h d = .ok ts) {r : TRow} (hr : r ∈ ts) :
    ∃ ps, turnoverPivot df g s h d = .ok ps ∧
      ∃ t0 ∈ turnoverDerive ps, r = { t0 with key := r.key } := by
  unfold turnoverKeyed at hk
  split at hk
  · cases hk
  · obtain ⟨t0, ht0, ha⟩ := mapME_ok_mem hk hr
    exact ⟨_, by assumption, t0, ht0, addKey_ok_shape ha⟩

theorem calc_ok_mem {df : DF} {g s h d : String} {t : List TRow}
    (hc : calculate_turnover df g s h d = .ok t) {r : TRow} (hr : r ∈ t) :
    ∃ ps, turnoverPivot df g s h d = .ok ps ∧
      ∃ t0 ∈ turnoverDerive ps, r = { t0 with key := r.key } := by
  unfold calculate_turnover at hc
  split at hc
  · cases hc
  · rename_i ts hk
    split at hc
    · cases hc
    · rename_i pr hm
      cases hc
      obtain ⟨pair, hpair, hfst⟩ := List.mem_map.mp hr
      have hpmem : pair ∈ pr := mem_sortLe.mp hpair
      obtain ⟨t0, ht0, hw⟩ := mapME_ok_mem hm hpmem
      have hteq : t0 = r := by rw [← hfst, withSortDate_ok_shape hw]
      subst hteq
      exact keyed_ok_mem hk ht0

/-! ### Error propagation between the stages -/

theorem calc_error_of_pivot_error {df : DF} {g s h d : String} {e : PdError}
    (hp : turnoverPivot df g s h d = .error e) :
    calculate_turnover df g s h d = .error e := by
  unfold calculate_turnover turnoverKeyed
  rw [hp]

theorem keyed_eq_of_pivot_ok {df : DF} {g s h d : String} {ps : List PRow}
    (hp : turnoverPivot df g s h d = .ok ps) :
    turnoverKeyed df g s h d = mapME addKey (turnoverDerive ps) := by
  unfold turnoverKeyed
  rw [hp]

theorem calc_error_of_keyed_error {df : DF} {g s h d : String} {e : PdError}
    (hk : turnoverKeyed df g s h d = .error e) :
    calculate_turnover df g s h d = .error e := by
  unfold calculate_turnover
  rw [hk]

theorem calc_error_of_sort_error {df : DF} {g s h d : String} {ts : List TRow} {e : PdError}
    (hk : turnoverKeyed df g s h d = .ok ts) (hm : mapME withSortDate ts = .error e) :
    calculate_turnover df g s h d = .error e := by
  unfold calculate_turnover
  split
  · rename_i e2 hk2
    rw [hk] at hk2
    cases hk2
  · rename_i ts2 hk2
    rw [hk] at hk2
    cases hk2
    split
    · rename_i e2 hm2
      rw [hm] at hm2
      cases hm2
      rfl
    · rename_i pr hm2
      rw [hm] at hm2
      cases hm2

/-! ### Filter algebra used for the invariance claims -/

theorem filterMap_congr {α β : Type} {f g : α → Option β} :
    ∀ {l : List α}, (∀ x ∈ l, f x = g x) → l.filterMap f = l.filterMap g := by
  intro l
  induction l with
  | nil => intro _; rfl
  | cons a as ih =>
    intro hfg
    rw [List.filterMap_cons, List.filterMap_cons, hfg a (List.mem_cons_self _ _),
      ih fun x hx => hfg x (List.mem_cons_of_mem _ hx)]

theorem filterMap_filter_and {α β : Type} {F : α → Option β} {p q : α → Bool}
    (hq : ∀ r, q r = false → F r = none) :
    ∀ l : List α, (l.filter fun r => p r && q r).filterMap F = (l.filter p).filterMap F := by
  intro l
  induction l with
  | nil => rfl
  | cons a as ih =>
    by_cases hp : p a
    · by_cases hqa : q a
      · simp [List.filter_cons, hp, hqa, List.filterMap_cons, ih]
      · have hFa : F a = none := hq a (by simpa using hqa)
        simp [List.filter_cons, hp, hqa, List.filterMap_cons, hFa, ih]
    · simp [List.filter_cons, hp, ih]

theorem mem_mkRow_fields {r : TRow} {upto : List PRow} {p : PRow}
    (hr : r = { mkRow upto p with key := r.key }) :
    r.hc_ref = p.hc_ref ∧ r.atv = (p.atv : ℚ) ∧ r.resc_inv = (p.inv : ℚ) ∧
      r.resc_vol = (p.vol : ℚ) ∧ r.resc_red = (p.red : ℚ) ∧ r.resc_total = p.resc_total ∧
      r.resc_total_red = p.resc_total_red ∧ r.to_inv = p.to_inv ∧ r.to_vol = p.to_vol ∧
      r.to_total = p.to_total ∧ r.to_red = p.to_red ∧ r.to_total_red = p.to_total_red := by
  rw [hr]
  exact ⟨rfl, rfl, rfl, rfl, rfl, rfl, rfl, rfl, rfl, rfl, rfl, rfl⟩

/-! ### The Entrada filter and the New filter absorb pre-filtered inputs -/

theorem pivotEntries_dropEntrada (df : DF) (g s h d : String) :
    pivotEntries (dropEntrada df h) g s h d = pivotEntries df g s h d := by
  unfold pivotEntries dropEntrada
  congr 1
  rw [List.filter_filter]
  apply List.filter_congr
  intro r _
  by_cases h1 : r.get h = some (Val.str "Entrada") <;>
    by_cases h2 : r.get s = some (Val.str "New") <;> simp [h1, h2]

theorem pivotEntries_dropNew (df : DF) (g s h d : String) :
    pivotEntries (dropNew df s) g s h d = pivotEntries df g s h d := by
  unfold pivotEntries dropNew
  congr 1
  rw [List.filter_filter]
  apply List.filter_congr
  intro r _
  by_cases h1 : r.get h = some (Val.str "Entrada") <;>
    by_cases h2 : r.get s = some (Val.str "New") <;> simp [h1, h2]

theorem turnoverPivot_dropEntrada (df : DF) (g s h d : String) :
    turnoverPivot (dropEntrada df h) g s h d = turnoverPivot df g s h d := by
  have hent := pivotEntries_dropEntrada df g s h d
  have hcols : (dropEntrada df h).cols = df.cols := rfl
  simp only [turnoverPivot, hent, hcols]

theorem turnoverPivot_dropNew (df : DF) (g s h d : String) :
    turnoverPivot (dropNew df s) g s h d = turnoverPivot df g s h d := by
  have hent := pivotEntries_dropNew df g s h d
  have hcols : (dropNew df s).cols = df.cols := rfl
  simp only [turnoverPivot, hent, hcols]

theorem calc_turnover_congr {df1 df2 : DF} (g s h d : String)
    (hp : turnoverPivot df1 g s h d = turnoverPivot df2 g s h d) :
    calculate_turnover df1 g s h d = calculate_turnover df2 g s h d := by
  unfold calculate_turnover turnoverKeyed
  rw [hp]

theorem tenureEntries_dropEntrada (df : DF) (g s h d : String) :
    tenureEntries (dropEntrada df h) g s h d = tenureEntries df g s h d := by
  unfold tenureEntries dropEntrada
  congr 1
  rw [List.filter_filter]
  apply List.filter_congr
  intro r _
  by_cases h1 : r.get h = some (Val.str "Entrada") <;> simp [h1]

theorem tenureEntries_dropUnparsed (df : DF) (g s h d : String) :
    tenureEntries (dropUnparsed df d) g s h d = tenureEntries df g s h d := by
  unfold tenureEntries dropUnparsed
  rw [List.filter_filter]
  exact filterMap_filter_and
    (fun r hq => by
      have hnone : (r.get d).bind valDate = none := by
        cases hb : (r.get d).bind valDate with
        | none => rfl
        | some n => rw [hb] at hq; cases hq
      simp [hnone])
    df.rows

theorem calc_tenure_congr (df1 df2 : DF) (g s h d : String)
    (hcols : df1.cols = df2.cols)
    (hent : tenureEntries df1 g s h d = tenureEntries df2 g s h d) :
    calculate_tenure df1 g s h d = calculate_tenure df2 g s h d := by
  simp only [calculate_tenure, hcols, hent]

/-! ### Rewriting New to Atv in the status column -/

theorem get_replNewAtv (s c : String) (r : Row) :
    (replNewAtv s r).get c =
      if c = s ∧ r.get c = some (Val.str "New") then some (Val.str "Atv")
      else r.get c := by
  obtain ⟨l⟩ := r
  induction l with
  | nil => simp [replNewAtv, Row.get]
  | cons a t ih =>
    obtain ⟨n, v⟩ := a
    by_cases hnc : n = c
    · subst hnc
      by_cases hrepl : n = s ∧ v = Val.str "New"
      · obtain ⟨hs, hv⟩ := hrepl
        subst hs
        subst hv
        simp [replNewAtv, Row.get, List.find?]
      · have hget : (Row.mk ((n, v) :: t)).get n = some v := by
          simp [Row.get, List.find?]
        rw [hget]
        have hmap : replNewAtv s ⟨(n, v) :: t⟩ =
            Row.mk ((n, v) :: (replNewAtv s ⟨t⟩).attrs) := by
          simp [replNewAtv, hrepl]
        rw [hmap]
        have hget2 : (Row.mk ((n, v) :: (replNewAtv s ⟨t⟩).attrs)).get n = some v := by
          simp [Row.get, List.find?]
        rw [hget2]
        split
        · rename_i hcond
          exact absurd ⟨hcond.1, by injection hcond.2⟩ hrepl
        · rfl
    · have hbeq : (n == c) = false := by simp [hnc]
      have hsk : (Row.mk ((n, v) :: t)).get c = (Row.mk t).get c := by
        simp [Row.get, List.find?, hbeq]
      have hmap : (replNewAtv s ⟨(n, v) :: t⟩).attrs =
          (if n = s ∧ v = Val.str "New" then (n, Val.str "Atv") else (n, v)) ::
            (replNewAtv s ⟨t⟩).attrs := by
        simp [replNewAtv]
      have hsk2 : (replNewAtv s ⟨(n, v) :: t⟩).get c = (replNewAtv s ⟨t⟩).get c := by
        unfold Row.get
        rw [hmap]
        have hname : (if n = s ∧ v = Val.str "New" then (n, Val.str "Atv") else (n, v)).1 = n := by
          split <;> rfl
        rw [List.find?]
        split
        · rename_i hfound
          rw [hname] at hfound
          exact absurd (by simpa using hfound) hnc
        · rfl
      rw [hsk, hsk2, ih]

theorem get_replNewAtv_ne {s c : String} (hcs : c ≠ s) (r : Row) :
    (replNewAtv s r).get c = r.get c := by
  rw [get_replNewAtv]
  simp [hcs]

theorem entr_replNewAtv (s h : String) (r : Row) :
    decide ((replNewAtv s r).get h ≠ some (Val.str "Entrada")) =
      decide (r.get h ≠ some (Val.str "Entrada")) := by
  rw [get_replNewAtv]
  split
  · rename_i hcond
    simp [hcond.2]
  · rfl

theorem bucket_replNewAtv (s : String) (r : Row) :
    bucketIsAtv s (replNewAtv s r) = bucketIsAtv s r := by
  unfold bucketIsAtv
  rw [get_replNewAtv]
  split
  · rename_i hcond
    simp [hcond.2]
  · rfl

theorem tenOf_replNewAtv {s : String} (hs : "Tenure" ≠ s) (r : Row) :
    tenOf (replNewAtv s r) = tenOf r := by
  unfold tenOf
  rw [get_replNewAtv_ne hs]

theorem tenureEntries_newToAtv (df : DF) {g s : String} (h d : String)
    (hg : g ≠ s) (hd2 : d ≠ s) (ht : "Tenure" ≠ s) :
    tenureEntries (newToAtv df s) g s h d = tenureEntries df g s h d := by
  unfold tenureEntries newToAtv
  rw [List.filter_map, List.filterMap_map]
  rw [List.filter_congr (fun r _ => by
    show decide ((replNewAtv s r).get h ≠ some (Val.str "Entrada")) =
      decide (r.get h ≠ some (Val.str "Entrada"))
    exact entr_replNewAtv s h r)]
  apply filterMap_congr
  intro r _
  show (match ((replNewAtv s r).get d).bind valDate, (replNewAtv s r).get g with
    | some dt, some gv =>
      some (TenEntry.mk dt gv (bucketIsAtv s (replNewAtv s r)) (tenOf (replNewAtv s r)))
    | _, _ => none) =
    (match (r.get d).bind valDate, r.get g with
    | some dt, some gv => some (TenEntry.mk dt gv (bucketIsAtv s r) (tenOf r))
    | _, _ => none)
  rw [get_replNewAtv_ne hd2, get_replNewAtv_ne hg, bucket_replNewAtv, tenOf_replNewAtv ht]

/-! ### Empty input reaches a missing-column error in both paths -/

theorem turnoverPivot_empty (cols : List String) (g s h d : String) :
    ∃ c, turnoverPivot ⟨cols, []⟩ g s h d = .error (.keyError c) := by
  have hent : pivotEntries ⟨cols, []⟩ g s h d = [] := rfl
  unfold turnoverPivot
  rw [hent]
  by_cases h1 : h ∉ (⟨cols, []⟩ : DF).cols
  · rw [if_pos h1]; exact ⟨h, rfl⟩
  rw [if_neg h1]
  by_cases h2 : s ∉ (⟨cols, []⟩ : DF).cols
  · rw [if_pos h2]; exact ⟨s, rfl⟩
  rw [if_neg h2]
  by_cases h3 : d ∉ (⟨cols, []⟩ : DF).cols
  · rw [if_pos h3]; exact ⟨d, rfl⟩
  rw [if_neg h3]
  by_cases h4 : "Ano" ∉ (⟨cols, []⟩ : DF).cols
  · rw [if_pos h4]; exact ⟨"Ano", rfl⟩
  rw [if_neg h4]
  by_cases h5 : "Mes" ∉ (⟨cols, []⟩ : DF).cols
  · rw [if_pos h5]; exact ⟨"Mes", rfl⟩
  rw [if_neg h5]
  by_cases h6 : g ∉ (⟨cols, []⟩ : DF).cols
  · rw [if_pos h6]; exact ⟨g, rfl⟩
  rw [if_neg h6]
  rw [if_pos (by simp [pivotStatuses] : Val.str "Inv" ∉ pivotStatuses ([] : List PEntry))]
  exact ⟨"Inv", rfl⟩

theorem tenure_empty_keyerror (cols : List String) (g s h d : String) :
    ∃ c, calculate_tenure ⟨cols, []⟩ g s h d = .error (.keyError c) := by
  unfold calculate_tenure
  split
  · exact ⟨h, rfl⟩
  · split
    · exact ⟨d, rfl⟩
    · split
      · exact ⟨s, rfl⟩
      · split
        · exact ⟨"Tenure", rfl⟩
        · split
          · exact ⟨g, rfl⟩
          · exact ⟨"Meses_Mediana_Atv", rfl⟩

/-! ### Evaluation of the concrete tables -/

theorem calcW : calculate_turnover dfW "G" "Tabela" "Tipo_HC" "Data" = .ok [trowW] := by
  decide

theorem tenW : calculate_tenure dfW "G" "Tabela" "Tipo_HC" "Data" = .ok [tenrowW] := by
  decide

/-! ### The claims -/

/-- Claim C1: for every input table and every row of the table returned by
calculate_turnover, the reference-headcount column HC_Ref equals the sum of
the active count and all three exit counts (involuntary + voluntary +
reduction) for that (grouping-value, period). -/
theorem thm_C1 (df : DF) (g s h d : String) (t : List TRow)
    (hc : calculate_turnover df g s h d = .ok t) :
    ∀ r ∈ t, r.hc_ref = r.atv + r.resc_inv + r.resc_vol + r.resc_red := by
  intro r hr
  obtain ⟨ps, hps, t0, ht0, hshape⟩ := calc_ok_mem hc hr
  obtain ⟨upto, p, hp, ht0eq⟩ := mem_deriveGo _ _ ht0
  subst ht0eq
  obtain ⟨h1, h2, h3, h4, h5, _⟩ := mem_mkRow_fields hshape
  rw [h1, h2, h3, h4, h5]
  unfold PRow.hc_ref PRow.resc_total_red PRow.resc_total
  ring

/-- Claim C1 witness: the documented four-row January table. -/
theorem thm_C1_witness :
    calculate_turnover dfW "G" "Tabela" "Tipo_HC" "Data" = .ok [trowW] ∧
      trowW.hc_ref = trowW.atv + trowW.resc_inv + trowW.resc_vol + trowW.resc_red :=
  ⟨calcW, thm_C1 dfW "G" "Tabela" "Tipo_HC" "Data" [trowW] calcW trowW
    (List.mem_singleton.mpr rfl)⟩

/-- Claim C2: every turnover-rate column equals its exit count divided by
HC_Ref rounded to 4 decimal places, and is exactly 0 when HC_Ref is 0 —
never an error, never NaN. -/
theorem thm_C2 (df : DF) (g s h d : String) (t : List TRow)
    (hc : calculate_turnover df g s h d = .ok t) :
    ∀ r ∈ t,
      (r.hc_ref ≠ 0 →
        r.to_inv = round4 (r.resc_inv / r.hc_ref) ∧
        r.to_vol = round4 (r.resc_vol / r.hc_ref) ∧
        r.to_red = round4 (r.resc_red / r.hc_ref) ∧
        r.to_total = round4 (r.resc_total / r.hc_ref) ∧
        r.to_total_red = round4 (r.resc_total_red / r.hc_ref)) ∧
      (r.hc_ref = 0 →
        r.to_inv = 0 ∧ r.to_vol = 0 ∧ r.to_red = 0 ∧ r.to_total = 0 ∧
          r.to_total_red = 0) := by
  intro r hr
  obtain ⟨ps, hps, t0, ht0, hshape⟩ := calc_ok_mem hc hr
  obtain ⟨upto, p, hp, ht0eq⟩ := mem_deriveGo _ _ ht0
  subst ht0eq
  obtain ⟨h1, h2, h3, h4, h5, h6, h7, h8, h9, h10, h11, h12⟩ := mem_mkRow_fields hshape
  constructor
  · intro hne
    rw [h1] at hne
    refine ⟨?_, ?_, ?_, ?_, ?_⟩
    · rw [h8, h3, h1]
      unfold PRow.to_inv divFill
      rw [if_neg hne]
    · rw [h9, h4, h1]
      unfold PRow.to_vol divFill
      rw [if_neg hne]
    · rw [h11, h5, h1]
      unfold PRow.to_red divFill
      rw [if_neg hne]
    · rw [h10, h6, h1]
      unfold PRow.to_total divFill
      rw [if_neg hne]
    · rw [h12, h7, h1]
      unfold PRow.to_total_red divFill
      rw [if_neg hne]
  · intro h0
    rw [h1] at h0
    refine ⟨?_, ?_, ?_, ?_, ?_⟩
    · rw [h8]
      unfold PRow.to_inv divFill
      rw [if_pos h0]
      exact round4_zero
    · rw [h9]
      unfold PRow.to_vol divFill
      rw [if_pos h0]
      exact round4_zero
    · rw [h11]
      unfold PRow.to_red divFill
      rw [if_pos h0]
      exact round4_zero
    · rw [h10]
      unfold PRow.to_total divFill
      rw [if_pos h0]
      exact round4_zero
    · rw [h12]
      unfold PRow.to_total_red divFill
      rw [if_pos h0]
      exact round4_zero

/-- Claim C2 witness: the rates of the documented four-row January table. -/
theorem thm_C2_witness :
    calculate_turnover dfW "G" "Tabela" "Tipo_HC" "Data" = .ok [trowW] ∧
      trowW.to_vol = round4 (trowW.resc_vol / trowW.hc_ref) ∧
      trowW.to_inv = round4 (trowW.resc_inv / trowW.hc_ref) := by
  refine ⟨calcW, ?_, ?_⟩
  · exact ((thm_C2 dfW "G" "Tabela" "Tipo_HC" "Data" [trowW] calcW trowW
      (List.mem_singleton.mpr rfl)).1 (by decide)).2.1
  · exact ((thm_C2 dfW "G" "Tabela" "Tipo_HC" "Data" [trowW] calcW trowW
      (List.mem_singleton.mpr rfl)).1 (by decide)).1

/-- Claim C3 counterexample: in dfC3 the two output rows are in
chronological order (January "2/1/2023" before February "1/2/2023"), belong
to the same (year, group) partition, and carry base voluntary-exit counts
(1, 0); yet Resc_Vol_YTD is (1, 0) — decreasing as the period advances, and
not the chronological cumulative sum, which would be (1, 1).  The cumsum of
lines 37-46 ran in the lexicographic string order of the pivot index, where
"1/2/2023" sorts before "2/1/2023". -/
theorem thm_C3_counterexample :
    ((calculate_turnover dfC3 "G" "Tabela" "Tipo_HC" "Data").toOption.getD []).map
        (fun r => (r.ano, r.perimetro, r.data, r.resc_vol, r.resc_vol_ytd)) =
      [(Val.str "2023", Val.str "A", Val.str "2/1/2023", 1, 1),
       (Val.str "2023", Val.str "A", Val.str "1/2/2023", 0, 0)] ∧
      (calculate_turnover dfC3 "G" "Tabela" "Tipo_HC" "Data").toOption.isSome = true := by
  constructor
  · decide
  · decide

/-- Claim C3 (amended): every year-to-date column is the cumulative sum of
its base column taken in the pivot index order (lexicographic on the
string-valued (date, year, month, group) tuple), partitioned by (year,
grouping-value) — so it does reset at each new year — and it is
non-decreasing along that pivot order within a partition; every row of the
chronologically sorted output carries the cumulative values of its pivot
position, but monotonicity in the output's chronological order is not
guaranteed. -/
theorem thm_C3_amended (df : DF) (g s h d : String) (ps : List PRow)
    (hp : turnoverPivot df g s h d = .ok ps) :
    (∀ (i j : Nat) (hi : i < (turnoverDerive ps).length)
        (hj : j < (turnoverDerive ps).length), i ≤ j →
      ((turnoverDerive ps).get ⟨i, hi⟩).ano = ((turnoverDerive ps).get ⟨j, hj⟩).ano →
      ((turnoverDerive ps).get ⟨i, hi⟩).perimetro =
        ((turnoverDerive ps).get ⟨j, hj⟩).perimetro →
      ((turnoverDerive ps).get ⟨i, hi⟩).resc_inv_ytd ≤
          ((turnoverDerive ps).get ⟨j, hj⟩).resc_inv_ytd ∧
        ((turnoverDerive ps).get ⟨i, hi⟩).resc_red_ytd ≤
          ((turnoverDerive ps).get ⟨j, hj⟩).resc_red_ytd ∧
        ((turnoverDerive ps).get ⟨i, hi⟩).resc_vol_ytd ≤
          ((turnoverDerive ps).get ⟨j, hj⟩).resc_vol_ytd ∧
        ((turnoverDerive ps).get ⟨i, hi⟩).resc_total_ytd ≤
          ((turnoverDerive ps).get ⟨j, hj⟩).resc_total_ytd ∧
        ((turnoverDerive ps).get ⟨i, hi⟩).resc_total_red_ytd ≤
          ((turnoverDerive ps).get ⟨j, hj⟩).resc_total_red_ytd ∧
        ((turnoverDerive ps).get ⟨i, hi⟩).to_inv_ytd ≤
          ((turnoverDerive ps).get ⟨j, hj⟩).to_inv_ytd ∧
        ((turnoverDerive ps).get ⟨i, hi⟩).to_vol_ytd ≤
          ((turnoverDerive ps).get ⟨j, hj⟩).to_vol_ytd ∧
        ((turnoverDerive ps).get ⟨i, hi⟩).to_total_ytd ≤
          ((turnoverDerive ps).get ⟨j, hj⟩).to_total_ytd ∧
        ((turnoverDerive ps).get ⟨i, hi⟩).to_red_ytd ≤
          ((turnoverDerive ps).get ⟨j, hj⟩).to_red_ytd ∧
        ((turnoverDerive ps).get ⟨i, hi⟩).to_total_red_ytd ≤
          ((turnoverDerive ps).get ⟨j, hj⟩).to_total_red_ytd) ∧
    (∀ (t : List TRow), calculate_turnover df g s h d = .ok t →
      ∀ r ∈ t, ∃ t0 ∈ turnoverDerive ps, r = { t0 with key := r.key }) := by
  constructor
  · intro i j hi hj hij hano hgrp
    have hpi : i < ps.length := by rw [← deriveGo_length ps []]; exact hi
    have hpj : j < ps.length := by rw [← deriveGo_length ps []]; exact hj
    have hgeti := deriveGo_getElem ps [] i hpi
    have hgetj := deriveGo_getElem ps [] j hpj
    simp only [List.nil_append] at hgeti hgetj
    rw [show (turnoverDerive ps).get ⟨i, hi⟩ =
        (deriveGo [] ps).get ⟨i, by rw [deriveGo_length]; exact hpi⟩ from rfl] at hano hgrp ⊢
    rw [show (turnoverDerive ps).get ⟨j, hj⟩ =
        (deriveGo [] ps).get ⟨j, by rw [deriveGo_length]; exact hpj⟩ from rfl] at hano hgrp ⊢
    rw [hgeti, hgetj] at hano hgrp ⊢
    simp only [mkRow] at hano hgrp ⊢
    refine ⟨?_, ?_, ?_, ?_, ?_, ?_, ?_, ?_, ?_, ?_⟩
    · exact ytdOf_take_le ps _ (fun p => Nat.cast_nonneg _) hij hpi hpj hano hgrp
    · exact ytdOf_take_le ps _ (fun p => Nat.cast_nonneg _) hij hpi hpj hano hgrp
    · exact ytdOf_take_le ps _ (fun p => Nat.cast_nonneg _) hij hpi hpj hano hgrp
    · exact ytdOf_take_le ps _ resc_total_nonneg hij hpi hpj hano hgrp
    · exact ytdOf_take_le ps _ resc_total_red_nonneg hij hpi hpj hano hgrp
    · exact ytdOf_take_le ps _ to_inv_nonneg hij hpi hpj hano hgrp
    · exact ytdOf_take_le ps _ to_vol_nonneg hij hpi hpj hano hgrp
    · exact ytdOf_take_le ps _ to_total_nonneg hij hpi hpj hano hgrp
    · exact ytdOf_take_le ps _ to_red_nonneg hij hpi hpj hano hgrp
    · exact ytdOf_take_le ps _ to_total_red_nonneg hij hpi hpj hano hgrp
  · intro t hct r hr
    obtain ⟨ps2, hps2, t0, ht0, hsh⟩ := calc_ok_mem hct hr
    rw [hp] at hps2
    cases hps2
    exact ⟨t0, ht0, hsh⟩

/-- Claim C3 witness: on dfC3 the pivot has the February row first; its
cumulative voluntary column there (0) is below the January row's (1), as
the amended claim orders them. -/
theorem thm_C3_amended_witness :
    turnoverPivot dfC3 "G" "Tabela" "Tipo_HC" "Data" = .ok [prowF, prowJ] ∧
      trowF0.resc_vol_ytd ≤ trowJ0.resc_vol_ytd := by
  have h0 : (0 : Nat) < (turnoverDerive [prowF, prowJ]).length := of_decide_eq_true rfl
  have h1 : (1 : Nat) < (turnoverDerive [prowF, prowJ]).length := of_decide_eq_true rfl
  have hg0 : (turnoverDerive [prowF, prowJ]).get ⟨0, of_decide_eq_true rfl⟩ = trowF0 := by
    decide
  have hg1 : (turnoverDerive [prowF, prowJ]).get ⟨1, of_decide_eq_true rfl⟩ = trowJ0 := by
    decide
  have hm := (thm_C3_amended dfC3 "G" "Tabela" "Tipo_HC" "Data" [prowF, prowJ]
      (by decide)).1 0 1 h0 h1 (by omega)
      (by rw [hg0, hg1]; decide) (by rw [hg0, hg1]; decide)
  refine ⟨by decide, ?_⟩
  have hvol := hm.2.2.1
  rw [hg0, hg1] at hvol
  exact hvol

/-- Claim C4 counterexample: on an empty table carrying the full documented
column set, calculate_turnover raises KeyError for the absent pivot column
'Inv' (line 29) and calculate_tenure raises KeyError for the absent median
column at the selection of line 103 — neither returns an empty table. -/
theorem thm_C4_counterexample :
    calculate_turnover dfE "G" "Tabela" "Tipo_HC" "Data" = .error (.keyError "Inv") ∧
      calculate_tenure dfE "G" "Tabela" "Tipo_HC" "Data" =
        .error (.keyError "Meses_Mediana_Atv") := by
  constructor
  · decide
  · decide

/-- Claim C4 (amended): for every empty input table, whatever its column
set, calculate_turnover and calculate_tenure each fail with a
missing-column (KeyError) failure instead of returning an empty table. -/
theorem thm_C4_amended (df : DF) (g s h d : String) (hrows : df.rows = []) :
    isKeyError (calculate_turnover df g s h d) = true ∧
      isKeyError (calculate_tenure df g s h d) = true := by
  obtain ⟨cols, rows⟩ := df
  have hr2 : rows = [] := hrows
  subst hr2
  constructor
  · obtain ⟨c1, h1⟩ := turnoverPivot_empty cols g s h d
    rw [calc_error_of_pivot_error h1]
    rfl
  · obtain ⟨c2, h2⟩ := tenure_empty_keyerror cols g s h d
    rw [h2]
    rfl

/-- Claim C4 witness: the empty table over the documented columns. -/
theorem thm_C4_witness :
    isKeyError (calculate_turnover dfE "G" "Tabela" "Tipo_HC" "Data") = true ∧
      isKeyError (calculate_tenure dfE "G" "Tabela" "Tipo_HC" "Data") = true :=
  thm_C4_amended dfE "G" "Tabela" "Tipo_HC" "Data" rfl

/-- Claim C5 counterexample: on the exact two-row example (group A, January,
one active row, one voluntary-exit row) calculate_turnover raises KeyError
'Inv' at line 29, because no involuntary status occurs anywhere in the
filtered input and the pivot therefore has no 'Inv' column; it does not
return the claimed row. -/
theorem thm_C5_counterexample :
    calculate_turnover dfC5 "G" "Tabela" "Tipo_HC" "Data" = .error (.keyError "Inv") := by
  decide

/-- Claim C5 (amended): on the two-row example alone the call fails with
KeyError 'Inv'; once rows carrying the Inv and Red statuses exist elsewhere
in the table (here in group value B), the output row for (A, January) has
HC_Ref = 2, TO_Vol = 0.5 and TO_Inv = 0 as the example expects. -/
theorem thm_C5_amended :
    calculate_turnover dfC5 "G" "Tabela" "Tipo_HC" "Data" = .error (.keyError "Inv") ∧
      ((calculate_turnover dfC5x "G" "Tabela" "Tipo_HC" "Data").toOption.getD []).map
          (fun r => (r.perimetro, r.hc_ref, r.to_vol, r.to_inv)) =
        [(Val.str "A", 2, 1 / 2, 0), (Val.str "B", 2, 0, 1 / 2)] ∧
      (calculate_turnover dfC5x "G" "Tabela" "Tipo_HC" "Data").toOption.isSome = true := by
  refine ⟨by decide, by decide, by decide⟩

/-- Claim C6: a surviving row with an unparseable day-first date makes the
turnover path fail with a date-parsing error at line 50, while the tenure
path (errors='coerce' then dropna, lines 93-94) silently behaves as if
those rows had been removed from the input. -/
theorem thm_C6 :
    (∀ (df : DF) (g s h d : String) (ts : List TRow),
      turnoverKeyed df g s h d = .ok ts →
      (ts.any fun t => (valDate t.data).isNone) = true →
      isParseError (calculate_turnover df g s h d) = true) ∧
    (∀ (df : DF) (g s h d : String),
      calculate_tenure df g s h d = calculate_tenure (dropUnparsed df d) g s h d) := by
  constructor
  · intro df g s h d ts hk hany
    obtain ⟨t, ht, hnone⟩ := List.any_eq_true.mp hany
    have hvd : valDate t.data = none := by simpa using hnone
    obtain ⟨m, hw⟩ := withSortDate_error_of_unparsed hvd
    obtain ⟨e2, hm2⟩ := mapME_error_of_mem ht hw
    obtain ⟨mm, he2⟩ : ∃ mm, e2 = .parseError mm :=
      mapME_error_shape (fun x e he => withSortDate_error_shape he) ts e2 hm2
    subst he2
    rw [calc_error_of_sort_error hk hm2]
    rfl
  · intro df g s h d
    exact (calc_tenure_congr (dropUnparsed df d) df g s h d rfl (tenureEntries_dropUnparsed df g s h d)).symm

/-- Claim C6 witness: dfB carries one row with the unparseable date
"bad-date". -/
theorem thm_C6_witness :
    isParseError (calculate_turnover dfB "G" "Tabela" "Tipo_HC" "Data") = true ∧
      calculate_tenure dfB "G" "Tabela" "Tipo_HC" "Data" =
        calculate_tenure (dropUnparsed dfB "Data") "G" "Tabela" "Tipo_HC" "Data" := by
  constructor
  · exact thm_C6.1 dfB "G" "Tabela" "Tipo_HC" "Data"
      (okTRows (turnoverKeyed dfB "G" "Tabela" "Tipo_HC" "Data")) (by decide) (by decide)
  · exact thm_C6.2 dfB "G" "Tabela" "Tipo_HC" "Data"

/-- Claim C7: rows whose headcount-type is the entrant sentinel Entrada
contribute to no output of either function: removing them beforehand leaves
both results unchanged. -/
theorem thm_C7 (df : DF) (g s h d : String) :
    calculate_turnover (dropEntrada df h) g s h d = calculate_turnover df g s h d ∧
      calculate_tenure (dropEntrada df h) g s h d = calculate_tenure df g s h d := by
  constructor
  · exact calc_turnover_congr g s h d (turnoverPivot_dropEntrada df g s h d)
  · exact calc_tenure_congr (dropEntrada df h) df g s h d rfl (tenureEntries_dropEntrada df g s h d)

/-- Claim C8: rows with the New status contribute nothing to the turnover
output (removing them beforehand changes nothing), while in the tenure path
the New status is classified into the Atv bucket: a row whose status cell
is New falls in that bucket, and rewriting every New status to Atv leaves
the tenure output unchanged (when the status column is none of the
grouping, date or Tenure columns). -/
theorem thm_C8 :
    (∀ (df : DF) (g s h d : String),
      calculate_turnover (dropNew df s) g s h d = calculate_turnover df g s h d) ∧
    (∀ (s : String) (r : Row), r.get s = some (Val.str "New") → bucketIsAtv s r = true) ∧
    (∀ (df : DF) (g s h d : String), g ≠ s → d ≠ s → "Tenure" ≠ s →
      calculate_tenure (newToAtv df s) g s h d = calculate_tenure df g s h d) := by
  refine ⟨?_, ?_, ?_⟩
  · intro df g s h d
    exact calc_turnover_congr g s h d (turnoverPivot_dropNew df g s h d)
  · intro s r hnew
    unfold bucketIsAtv
    simp [hnew]
  · intro df g s h d hg hd2 ht
    exact calc_tenure_congr (newToAtv df s) df g s h d rfl
      (tenureEntries_newToAtv df h d hg hd2 ht)

/-- Claim C8 witness: the documented schema, where the status column Tabela
differs from the grouping, date and Tenure columns. -/
theorem thm_C8_witness :
    calculate_turnover (dropNew dfW "Tabela") "G" "Tabela" "Tipo_HC" "Data" =
        calculate_turnover dfW "G" "Tabela" "Tipo_HC" "Data" ∧
      bucketIsAtv "Tabela" (rW "31/01/2024" "2024" "1" "A" "New" "IC" 2) = true ∧
      calculate_tenure (newToAtv dfW "Tabela") "G" "Tabela" "Tipo_HC" "Data" =
        calculate_tenure dfW "G" "Tabela" "Tipo_HC" "Data" :=
  ⟨thm_C8.1 dfW "G" "Tabela" "Tipo_HC" "Data",
   thm_C8.2.1 "Tabela" (rW "31/01/2024" "2024" "1" "A" "New" "IC" 2) (by decide),
   thm_C8.2.2 dfW "G" "Tabela" "Tipo_HC" "Data" (by decide) (by decide) (by decide)⟩

/-- Claim C9: make_turnover_table (and make_tenure_table) over an explicit
grouping-column list is the concatenation of the per-column calls in list
order: each sub-call succeeds with its own table, the result is their
flattening, and the row count is the sum of the per-call row counts — no
deduplication, no cross-group filtering. -/
theorem thm_C9 :
    (∀ (df : DF) (gs : List String) (s h d : String) (t : List TRow)
        (ts : List (List TRow)),
      make_turnover_table df (some gs) s h d = .ok t →
      mapME (fun gcol => calculate_turnover df gcol s h d) gs = .ok ts →
      List.Forall₂ (fun gcol tg => calculate_turnover df gcol s h d = .ok tg) gs ts ∧
        t = ts.flatten ∧ t.length = (ts.map List.length).sum) ∧
    (∀ (df : DF) (gs : List String) (s h d : String) (t : List TenRow)
        (ts : List (List TenRow)),
      make_tenure_table df (some gs) s h d = .ok t →
      mapME (fun gcol => calculate_tenure df gcol s h d) gs = .ok ts →
      List.Forall₂ (fun gcol tg => calculate_tenure df gcol s h d = .ok tg) gs ts ∧
        t = ts.flatten ∧ t.length = (ts.map List.length).sum) := by
  constructor
  · intro df gs s h d t ts hmk hts
    unfold make_turnover_table at hmk
    split at hmk
    · cases hmk
    · rename_i ts2 hts2
      cases hmk
      have hts3 : mapME (fun gcol => calculate_turnover df gcol s h d) gs = .ok ts2 := hts2
      rw [hts3] at hts
      cases hts
      exact ⟨mapME_ok_forall2 _ _ hts3, rfl, List.length_flatten _⟩
  · intro df gs s h d t ts hmk hts
    unfold make_tenure_table at hmk
    split at hmk
    · cases hmk
    · rename_i ts2 hts2
      cases hmk
      have hts3 : mapME (fun gcol => calculate_tenure df gcol s h d) gs = .ok ts2 := hts2
      rw [hts3] at hts
      cases hts
      exact ⟨mapME_ok_forall2 _ _ hts3, rfl, List.length_flatten _⟩

/-- Claim C9 witness: a one-column grouping list over the documented
table. -/
theorem thm_C9_witness :
    (List.Forall₂
        (fun gcol tg => calculate_turnover dfW gcol "Tabela" "Tipo_HC" "Data" = .ok tg)
        ["G"] [[trowW]] ∧
      [trowW] = ([[trowW]] : List (List TRow)).flatten ∧
      ([trowW] : List TRow).length = ([[trowW]].map List.length).sum) ∧
    (List.Forall₂
        (fun gcol tg => calculate_tenure dfW gcol "Tabela" "Tipo_HC" "Data" = .ok tg)
        ["G"] [[tenrowW]] ∧
      [tenrowW] = ([[tenrowW]] : List (List TenRow)).flatten ∧
      ([tenrowW] : List TenRow).length = ([[tenrowW]].map List.length).sum) :=
  ⟨thm_C9.1 dfW ["G"] "Tabela" "Tipo_HC" "Data" [trowW] [[trowW]]
      (by decide) (by decide),
   thm_C9.2 dfW ["G"] "Tabela" "Tipo_HC" "Data" [tenrowW] [[tenrowW]]
      (by decide) (by decide)⟩

/-- Claim C10 counterexample: dfNN carries the literal Ano and Mes columns
(and the grouping column G) as numbers, with the four documented role
columns present — and calculate_turnover succeeds: pandas builds the Key of
line 49 by numeric addition of the three numeric columns instead of
raising, so the claim that such a table always fails is refuted. -/
theorem thm_C10_counterexample :
    (dfNN.rows.all fun r => (r.get "Ano").any Val.isNum) = true ∧
      (dfNN.rows.all fun r => (r.get "Mes").any Val.isNum) = true ∧
      (calculate_turnover dfNN "G" "Tabela" "Tipo_HC" "Data").toOption.isSome = true := by
  refine ⟨by decide, by decide, by decide⟩

/-- Claim C10 (amended): the columns literally named Ano and Mes are
hard-coded requirements of calculate_turnover — not derived from the date
column, not configurable through the four column-name parameters.  With the
role columns present, a table lacking Ano (or Mes) fails with that
missing-column KeyError; and when an Ano value is a number while the
grouping (Perimetro) or Mes value of its pivot row is a string, the
elementwise Key addition of line 49 fails with a TypeError.  (When the
Perimetro, Ano and Mes values are all numeric, line 49 adds them and the
call can succeed instead — the counterexample.) -/
theorem thm_C10_amended :
    (∀ (df : DF) (g s h d : String),
      h ∈ df.cols → s ∈ df.cols → d ∈ df.cols → "Ano" ∉ df.cols →
      calculate_turnover df g s h d = .error (.keyError "Ano")) ∧
    (∀ (df : DF) (g s h d : String),
      h ∈ df.cols → s ∈ df.cols → d ∈ df.cols → "Ano" ∈ df.cols → "Mes" ∉ df.cols →
      calculate_turnover df g s h d = .error (.keyError "Mes")) ∧
    (∀ (df : DF) (g s h d : String) (ps : List PRow) (p : PRow) (q : ℚ),
      turnoverPivot df g s h d = .ok ps → p ∈ ps → p.ano = Val.num q →
      ((∃ a, p.grp = Val.str a) ∨ (∃ b, p.mes = Val.str b)) →
      isTypeError (calculate_turnover df g s h d) = true) := by
  refine ⟨?_, ?_, ?_⟩
  · intro df g s h d hh hs hd2 hano
    apply calc_error_of_pivot_error
    unfold turnoverPivot
    rw [if_neg (not_not_intro hh), if_neg (not_not_intro hs), if_neg (not_not_intro hd2),
      if_pos hano]
  · intro df g s h d hh hs hd2 hano hmes
    apply calc_error_of_pivot_error
    unfold turnoverPivot
    rw [if_neg (not_not_intro hh), if_neg (not_not_intro hs), if_neg (not_not_intro hd2),
      if_neg (not_not_intro hano), if_pos hmes]
  · intro df g s h d ps p q hp hpmem hano hmix
    obtain ⟨upto, hmem⟩ := deriveGo_mem_of_mem ps [] hpmem
    have hanot : (mkRow upto p).ano = Val.num q := hano
    have hmixt : (∃ a, (mkRow upto p).perimetro = Val.str a) ∨
        (∃ b, (mkRow upto p).mes = Val.str b) := hmix
    obtain ⟨m, hak⟩ := addKey_error_of_mixed hanot hmixt
    obtain ⟨e2, hker⟩ := mapME_error_of_mem hmem hak
    have hkeyed : turnoverKeyed df g s h d = .error e2 := by
      rw [keyed_eq_of_pivot_ok hp]
      exact hker
    obtain ⟨mm, he2⟩ : ∃ mm, e2 = .typeError mm :=
      mapME_error_shape (fun x e he => addKey_error_shape he) _ e2 hker
    subst he2
    rw [calc_error_of_keyed_error hkeyed]
    rfl

/-- Claim C10 witness: dfA lacks Ano, dfM lacks Mes, dfN carries Ano as
numbers while its grouping values are strings; each has the four role
columns under their default names. -/
theorem thm_C10_amended_witness :
    calculate_turnover dfA "G" "Tabela" "Tipo_HC" "Data" = .error (.keyError "Ano") ∧
      calculate_turnover dfM "G" "Tabela" "Tipo_HC" "Data" = .error (.keyError "Mes") ∧
      isTypeError (calculate_turnover dfN "G" "Tabela" "Tipo_HC" "Data") = true :=
  ⟨thm_C10_amended.1 dfA "G" "Tabela" "Tipo_HC" "Data" (by decide) (by decide) (by decide)
      (by decide),
   thm_C10_amended.2.1 dfM "G" "Tabela" "Tipo_HC" "Data" (by decide) (by decide) (by decide)
      (by decide) (by decide),
   thm_C10_amended.2.2 dfN "G" "Tabela" "Tipo_HC" "Data" [prowN] prowN 2024 (by decide)
      (List.mem_singleton.mpr rfl) rfl (Or.inl ⟨"A", rfl⟩)⟩

end PaMetrics
